import Mathlib

/-!
Verification of the Suzu configuration store (`src/sdk/config.hpp`,
`src/sdk/util.hpp`, `src/sdk/error.hpp`) against its natural-language
specification.

The C++ code is shallowly embedded:

* `nlohmann::json` values become the inductive `JSON`.  Binary floating
  payloads are modelled as rationals (`Rat`): every claim under scrutiny
  concerns only the runtime *kind* of a number (integer vs. floating), never
  binary64 arithmetic or its text formatting.  Strings are modelled as Lean
  `String`s, i.e. well-formed Unicode text; the store never manufactures
  ill-formed byte sequences itself.
* `nlohmann::json_pointer` construction, `contains`, const lookup and the
  creating non-const `operator[]` walk are embedded token-for-token
  (`jsonPointerParse`, `jsonResolve`, `jsonWrite`), including the partial
  mutation the C++ walk leaves behind when it throws half-way.
* File I/O is abstracted by an oracle (`FS` for writes, `ConstructEvent`
  for the read-and-parse step of the constructor): the stream outcome is a
  parameter, the surrounding control flow is the source's.
* `QReadWriteLock` itself is not modelled; the lock is the only `mutable`
  member, so the `const` member functions (`getValue`, `writeToString`,
  `writeToFile`, `isOk`) have no effect on the abstract store state.
* C++ `try { ... } catch (...)` blocks around total computations are
  modelled by totality; where the protected code can actually throw
  (pointer construction, the creating walk), the failure is an explicit
  `Option`/`Bool` outcome.
-/

/-- `suzu::sdk::ErrorCode` from `src/sdk/error.hpp`. -/
inductive ErrorCode where
  | Ok
  | Unknown
  | NoOperation
  | InvalidParameter
  | InvalidState
  | CriticalResource
  | CriticalComponent
  | CriticalError
  | OpenFile
  | ReadFile
  | WriteFile
deriving DecidableEq

/-- `nlohmann::json` values (`suzu::sdk::JSON`).  `num` covers the signed and
unsigned integer kinds (`is_number_integer()` is true for both), `fnum` is the
floating kind, `discarded` is the `value_t::discarded` state produced by a
failed non-throwing parse. -/
inductive JSON where
  | null
  | boolean (b : Bool)
  | num (n : Int)
  | fnum (q : Rat)
  | str (s : String)
  | arr (xs : List JSON)
  | obj (kvs : List (String × JSON))
  | discarded

/-- `basic_json::is_discarded()`. -/
def JSON.is_discarded : JSON → Bool
  | JSON.discarded => true
  | _ => false

/-- `basic_json::is_number_integer()` (true for signed and unsigned storage). -/
def JSON.is_number_integer : JSON → Bool
  | JSON.num _ => true
  | _ => false

/-- `basic_json::is_number_float()`. -/
def JSON.is_number_float : JSON → Bool
  | JSON.fnum _ => true
  | _ => false

/-- `basic_json::is_string()`. -/
def JSON.is_string : JSON → Bool
  | JSON.str _ => true
  | _ => false

/-- integer payload, as stored by `get<int64_t>` on an integer-kind value. -/
def JSON.getInt : JSON → Int
  | JSON.num n => n
  | _ => 0

/-- floating payload of a floating-kind value. -/
def JSON.getFloat : JSON → Rat
  | JSON.fnum q => q
  | _ => 0

/-- string payload of a string-kind value. -/
def JSON.getStr : JSON → String
  | JSON.str s => s
  | _ => ""

/-- key lookup in an object's member list (`std::map::find`; keys are unique,
so first-match lookup agrees with map lookup). -/
def lookupKey : List (String × JSON) → String → Option JSON
  | [], _ => none
  | (k2, v2) :: r, k => if k2 = k then some v2 else lookupKey r k

/-- key update-or-insert in an object's member list (`std::map::operator[]`
followed by assignment; position is irrelevant for lookup). -/
def setKey : List (String × JSON) → String → JSON → List (String × JSON)
  | [], k, c => [(k, c)]
  | (k2, v2) :: r, k, c => if k2 = k then (k2, c) :: r else (k2, v2) :: setKey r k c

/-- all characters are ASCII digits (`std::all_of(..., isdigit)`-style check
used when a null value is converted to an array during a creating walk).
Vacuously true on the empty token, exactly as in the source. -/
def allDigits (l : List Char) : Bool := l.all (fun c => c.isDigit)

/-- a reference token is a syntactically valid array index: non-empty,
decimal digits only, no leading zero except for `0` itself.  This is the
test `json_pointer::contains` performs inline and the part of
`json_pointer::array_index` enforced by throwing
`parse_error.106`/`parse_error.109`; `array_index` additionally range-checks
the value (see `idxOk`). -/
def validIdx (t : String) : Bool :=
  match t.data with
  | [] => false
  | c :: cs => allDigits (c :: cs) && (cs.isEmpty || c != '0')

/-- decimal value of a digit token (`json_pointer::array_index`). -/
def tokToNat (t : String) : Nat :=
  t.data.foldl (fun n c => 10 * n + (c.toNat - 48)) 0

/-- the full test under which `json_pointer::array_index` returns normally:
the RFC 6901 syntactic checks (`validIdx`) plus the 64-bit range guard —
`std::stoull` throws once the token's value exceeds `ULLONG_MAX`
(rethrown as `out_of_range.404`), and the value equal to the maximum of the
64-bit `size_type` is rejected by the explicit `res >= max(size_type)`
check (`out_of_range.410`), so exactly the values below `2^64 - 1` pass. -/
def idxOk (t : String) : Bool :=
  validIdx t && decide (tokToNat t < 18446744073709551615)

/-- `json_pointer::array_index`: `some` the index, or `none` for the thrown
`parse_error.106` (leading zero) / `parse_error.109` (not a number) /
`out_of_range.404`/`out_of_range.410` (beyond the 64-bit size type). -/
def array_index (t : String) : Option Nat :=
  if idxOk t then some (tokToNat t) else none

/-- reference-token unescaping with validation: every `~` must be followed by
`0` or `1` (`parse_error.108` otherwise), `~1` becomes `/`, `~0` becomes `~`. -/
def unescapeList : List Char → Option (List Char)
  | [] => some []
  | '~' :: '0' :: r => (unescapeList r).map (fun l => '~' :: l)
  | '~' :: '1' :: r => (unescapeList r).map (fun l => '/' :: l)
  | '~' :: _ => none
  | c :: r => (unescapeList r).map (fun l => c :: l)

/-- split the character sequence after the leading `/` at every `/`
(`json_pointer::split`'s loop; the empty remainder yields one empty token). -/
def splitSlash : List Char → List (List Char)
  | [] => [[]]
  | '/' :: r => [] :: splitSlash r
  | c :: r =>
    match splitSlash r with
    | t :: rest => (c :: t) :: rest
    | [] => [[c]]

/-- validated unescape of one token, as a string. -/
def unescapeTok (l : List Char) : Option String :=
  (unescapeList l).map (fun r => String.mk r)

/-- `nlohmann::json_pointer` construction from a path string: empty string is
the root pointer, otherwise the string must begin with `/`
(`parse_error.107`), and is split into unescaped reference tokens.
`none` models the constructor throwing. -/
def jsonPointerParse (s : String) : Option (List String) :=
  match s.data with
  | [] => some []
  | c :: rest => if c = '/' then (splitSlash rest).mapM unescapeTok else none

/-- const pointer walk: `basic_json::contains(json_pointer)` fused with the
const `operator[](json_pointer)` performed immediately after a successful
containment check.  Objects index by key; arrays reject `-`, validate the
token as an index and require it in range; primitives resolve nothing. -/
def jsonResolve : JSON → List String → Option JSON
  | j, [] => some j
  | JSON.obj kvs, t :: ts =>
    match lookupKey kvs t with
    | some c => jsonResolve c ts
    | none => none
  | JSON.arr xs, t :: ts =>
    if t == "-" then none
    else
      match array_index t with
      | none => none
      | some idx => if idx < xs.length then jsonResolve (xs.getD idx JSON.null) ts else none
  | _, _ :: _ => none

/-- creating pointer walk: non-const `operator[](json_pointer)`, i.e.
`json_pointer::get_unchecked`, followed by assignment of `v` at the target.
Null values met on the way are converted to an array (token all digits or
`-`) or an object; absent object members are created null; arrays append on
`-` and resize with nulls past the end.  The `Bool` is `false` when the C++
walk throws (`parse_error.106/109` on a bad array token, `out_of_range.404`
on a primitive); the returned document then carries exactly the partial
mutation the aborted walk leaves behind. -/
def jsonWrite : JSON → List String → JSON → JSON × Bool
  | _, [], v => (v, true)
  | j, t :: ts, v =>
    match
      (match j with
       | JSON.null => if allDigits t.data || t == "-" then JSON.arr [] else JSON.obj []
       | j2 => j2) with
    | JSON.obj kvs =>
      let r := jsonWrite ((lookupKey kvs t).getD JSON.null) ts v
      (JSON.obj (setKey kvs t r.1), r.2)
    | JSON.arr xs =>
      if t == "-" then
        let r := jsonWrite JSON.null ts v
        (JSON.arr (xs ++ [r.1]), r.2)
      else
        match array_index t with
        | none => (JSON.arr xs, false)
        | some idx =>
          let ys := if idx < xs.length then xs else xs ++ List.replicate (idx + 1 - xs.length) JSON.null
          let r := jsonWrite (ys.getD idx JSON.null) ts v
          (JSON.arr (ys.set idx r.1), r.2)
    | j2 => (j2, false)

/-- the token list is compatible with the nodes already present in the
document: every existing interior node is an object, or an array indexed by a
valid in-64-bit-range numeric token (`-` excluded), and null or absent nodes
may be freshly created.  Exactly the region in which the creating walk
succeeds *and* the written node is afterwards reachable by the const walk. -/
def pathFits : JSON → List String → Bool
  | _, [] => true
  | JSON.null, t :: ts =>
    if allDigits t.data || t == "-" then idxOk t && pathFits JSON.null ts
    else pathFits JSON.null ts
  | JSON.obj kvs, t :: ts => pathFits ((lookupKey kvs t).getD JSON.null) ts
  | JSON.arr xs, t :: ts =>
    idxOk t &&
      pathFits (if tokToNat t < xs.length then xs.getD (tokToNat t) JSON.null else JSON.null) ts
  | _, _ :: _ => false

/-- `n` spaces (`basic_json::serializer`'s indent string slice). -/
def indentStr (n : Nat) : String := String.mk (List.replicate n ' ')

/-- `0..15` to a lowercase hexadecimal digit (the serializer's `\u%04x`). -/
def hexDigit (n : Nat) : Char :=
  if n < 10 then Char.ofNat (48 + n) else Char.ofNat (87 + n)

/-- `serializer::dump_escaped` for one character with `ensure_ascii = false`:
quote, backslash and the named control escapes, `\u00xx` for the remaining
control characters, everything else verbatim. -/
def escapeChar (c : Char) : List Char :=
  if c = '"' then ['\\', '"']
  else if c = '\\' then ['\\', '\\']
  else if c.toNat = 8 then ['\\', 'b']
  else if c.toNat = 12 then ['\\', 'f']
  else if c = '\n' then ['\\', 'n']
  else if c.toNat = 13 then ['\\', 'r']
  else if c = '\t' then ['\\', 't']
  else if c.toNat < 32 then ['\\', 'u', '0', '0', hexDigit (c.toNat / 16), hexDigit (c.toNat % 16)]
  else [c]

/-- `serializer::dump_escaped` over a whole string. -/
def escapeString (s : String) : String := String.mk ((s.data.map escapeChar).flatten)

/-- decimal text of an integer-kind number (`dump_integer`). -/
def intRepr (n : Int) : String := n.repr

/-- text of a floating-kind number.  `dump_float`'s shortest-round-trip
binary64 formatting is abstracted: no claim inspects this text, the payload
is a rational stand-in. -/
def floatRepr (q : Rat) : String := toString q

mutual

/-- `basic_json::dump`: `ind = none` is the dense form (`indent = -1`),
`ind = some step` pretty-prints with `step`-space indentation, `cur` being
the current indent.  Empty containers print as two characters in both
forms, exactly as in `serializer::dump`. -/
def dumpJSON : Option Nat → JSON → Nat → String
  | _, JSON.null, _ => "null"
  | _, JSON.boolean b, _ => if b then "true" else "false"
  | _, JSON.num n, _ => intRepr n
  | _, JSON.fnum q, _ => floatRepr q
  | _, JSON.str s, _ => "\"" ++ escapeString s ++ "\""
  | _, JSON.discarded, _ => "<discarded>"
  | _, JSON.arr [], _ => "[]"
  | _, JSON.obj [], _ => "\x7b\x7d"
  | none, JSON.arr (x :: xs), _ =>
    "[" ++ dumpJSON none x 0 ++ dumpArrRest none 0 xs ++ "]"
  | some step, JSON.arr (x :: xs), cur =>
    "[\n" ++ indentStr (cur + step) ++ dumpJSON (some step) x (cur + step) ++
      dumpArrRest (some step) (cur + step) xs ++ "\n" ++ indentStr cur ++ "]"
  | none, JSON.obj (m :: ms), _ =>
    "\x7b\"" ++ escapeString m.1 ++ "\":" ++ dumpJSON none m.2 0 ++
      dumpObjRest none 0 ms ++ "\x7d"
  | some step, JSON.obj (m :: ms), cur =>
    "\x7b\n" ++ indentStr (cur + step) ++ "\"" ++ escapeString m.1 ++ "\": " ++
      dumpJSON (some step) m.2 (cur + step) ++ dumpObjRest (some step) (cur + step) ms ++
      "\n" ++ indentStr cur ++ "\x7d"

/-- remaining array elements, each preceded by the element separator. -/
def dumpArrRest : Option Nat → Nat → List JSON → String
  | _, _, [] => ""
  | none, ni, x :: xs => "," ++ dumpJSON none x 0 ++ dumpArrRest none ni xs
  | some step, ni, x :: xs =>
    ",\n" ++ indentStr ni ++ dumpJSON (some step) x ni ++ dumpArrRest (some step) ni xs

/-- remaining object members, each preceded by the member separator. -/
def dumpObjRest : Option Nat → Nat → List (String × JSON) → String
  | _, _, [] => ""
  | none, ni, m :: ms =>
    ",\"" ++ escapeString m.1 ++ "\":" ++ dumpJSON none m.2 0 ++ dumpObjRest none ni ms
  | some step, ni, m :: ms =>
    ",\n" ++ indentStr ni ++ "\"" ++ escapeString m.1 ++ "\": " ++
      dumpJSON (some step) m.2 ni ++ dumpObjRest (some step) ni ms

end

/-- oracle for the write-side stream behaviour of `suzu::sdk::util::WriteFile`:
whether opening the stream at a path fails, and whether writing throws. -/
structure FS where
  openFails : String → Bool
  writeThrows : String → Bool

/-- `suzu::sdk::util::WriteFile` (src/sdk/util.hpp): null path or null data
is `InvalidParameter`, a zero-length write is `NoOperation`, then the stream
outcome decides between `OpenFile`, `WriteFile` and `Ok`.  The `binary` and
`append` open-mode flags do not change the result taxonomy. -/
def util.WriteFile (fs : FS) (path : Option String) (data : Option String)
    (len : Nat) (binary : Bool) (append : Bool) : ErrorCode :=
  if path.isNone || data.isNone then ErrorCode.InvalidParameter
  else if len = 0 then ErrorCode.NoOperation
  else if fs.openFails (path.getD "") then ErrorCode.OpenFile
  else if fs.writeThrows (path.getD "") then ErrorCode.WriteFile
  else ErrorCode.Ok

/-- `suzu::sdk::Configuration`'s data members (the `QReadWriteLock` is the
only member not represented: it is `mutable` and carries no store state). -/
structure Configuration where
  m_dict : JSON
  m_path : String
  m_isOk : Bool
  m_writeOnDel : Bool

/-- outcome of the constructor's read-and-parse step for a non-null path:
`ioRead c parsed` is `util::ReadFile` returning `c` (with
`JSON::parse(buf, nullptr, false, true)` yielding `parsed` when `c = Ok`;
the permissive parse never throws, it produces a discarded value on bad
input); `exn d` is an exception escaping the protected sequence, `d` being
whatever the document buffer held at the throw. -/
inductive ConstructEvent where
  | ioRead (c : ErrorCode) (parsed : JSON)
  | exn (d : JSON)

/-- `Configuration::Configuration(path, writedest)`: member init sets
`m_isOk = true` and default-initializes `m_dict` to null and `m_path` to the
empty string; a non-null path is recorded first, then the file is read
(early return on failure) and parsed (reset to an empty object on a
discarded parse); the `catch (...)` turns any thrown fault into
`m_isOk = false`. -/
def Configuration.construct (path : Option String) (ev : ConstructEvent)
    (writedest : Bool) : Configuration :=
  match path with
  | none => { m_dict := JSON.null, m_path := "", m_isOk := true, m_writeOnDel := writedest }
  | some p =>
    match ev with
    | ConstructEvent.ioRead c parsed =>
      if c = ErrorCode.Ok then
        if parsed.is_discarded then
          { m_dict := JSON.obj [], m_path := p, m_isOk := true, m_writeOnDel := writedest }
        else
          { m_dict := parsed, m_path := p, m_isOk := true, m_writeOnDel := writedest }
      else
        { m_dict := JSON.null, m_path := p, m_isOk := true, m_writeOnDel := writedest }
    | ConstructEvent.exn d =>
      { m_dict := d, m_path := p, m_isOk := false, m_writeOnDel := writedest }

/-- `Configuration::isOk`. -/
def Configuration.isOk (st : Configuration) : Bool := st.m_isOk

/-- `Configuration::getValue`: build the pointer (a throw is caught and
yields the static discarded sentinel `gl_discval`, itself the discarded
result of parsing `"\x7b"`), return the sentinel if unhealthy or the
document does not contain the pointer, otherwise a copy of the resolved
node.  Total: the surrounding `try`/`catch` never lets a fault escape. -/
def Configuration.getValue (st : Configuration) (path : String) : JSON :=
  match jsonPointerParse path with
  | none => JSON.discarded
  | some toks =>
    if st.m_isOk = false then JSON.discarded
    else
      match jsonResolve st.m_dict toks with
      | none => JSON.discarded
      | some v => v

/-- `Configuration::setValue`: no-op if unhealthy; build the pointer (a
throw is caught, leaving the document untouched); run the creating walk,
keeping whatever partial mutation an aborted walk produced. -/
def Configuration.setValue (st : Configuration) (path : String) (v : JSON) : Configuration :=
  if st.m_isOk = false then st
  else
    match jsonPointerParse path with
    | none => st
    | some toks => { st with m_dict := (jsonWrite st.m_dict toks v).1 }

/-- `Configuration::writeToString`: the static `gl_emptydoc` two-character
empty-object text if unhealthy, otherwise `m_dict.dump(pretty ? 4 : -1)`. -/
def Configuration.writeToString (st : Configuration) (pretty : Bool) : String :=
  if st.m_isOk = false then "\x7b\x7d"
  else dumpJSON (if pretty then some 4 else none) st.m_dict 0

/-- `Configuration::writeToFile`: a null path argument returns
`InvalidParameter` immediately; otherwise an unhealthy store returns
`InvalidState`, and the dense serialization is handed to
`util::WriteFile` with the target `path == nullptr ? m_path.c_str() : path`
(a ternary whose null branch is unreachable behind the early return). -/
def Configuration.writeToFile (fs : FS) (st : Configuration) (path : Option String)
    (append : Bool) : ErrorCode :=
  match path with
  | none => ErrorCode.InvalidParameter
  | some _ =>
    if st.m_isOk = false then ErrorCode.InvalidState
    else
      let serjson := Configuration.writeToString st false
      util.WriteFile fs (some (path.getD st.m_path)) (some serjson) serjson.length false append

/-- `Configuration::reset`: replace the document with the freshly parsed
empty object `"\x7b\x7d"` and force `m_isOk = true`. -/
def Configuration.reset (st : Configuration) : Configuration :=
  { st with m_dict := JSON.obj [], m_isOk := true }

/-- `Configuration::~Configuration`: flush to the saved path (passed
explicitly, not as a null argument) when `m_writeOnDel` is set and the saved
path is non-empty; the result is discarded. -/
def Configuration.destroy (fs : FS) (st : Configuration) : Option ErrorCode :=
  if st.m_writeOnDel && !(st.m_path = "") then
    some (Configuration.writeToFile fs st (some st.m_path) false)
  else none

/-- the pointer-plus-resolution a successful `getValue` performs, as one
partial lookup. -/
def Configuration.lookupPath (st : Configuration) (path : String) : Option JSON :=
  (jsonPointerParse path).bind (fun toks => jsonResolve st.m_dict toks)

/-- `static_cast<int32_t>` on the stored 64-bit integer (two's complement
wrap-around into the 32-bit range). -/
def toInt32cast (n : Int) : Int :=
  (n + 2147483648) % 4294967296 - 2147483648

/-- `static_cast<int64_t>` wrap into the 64-bit range. -/
def toInt64cast (n : Int) : Int :=
  (n + 9223372036854775808) % 18446744073709551616 - 9223372036854775808

/-- `suzu::sdk::JSONValueConverter` (alias `JSONCVT`): the closed set of
`to<T>` template specializations.  Each checks the runtime kind and returns
the fallback on mismatch; the generic template is a compile error and has no
runtime embedding.  `toFloat`/`toDouble` share the rational payload: only
kind dispatch is claimed about them. -/
def JSONValueConverter.toInt32 (val : JSON) (fallback : Int) : Int :=
  if val.is_number_integer then toInt32cast val.getInt else fallback

/-- `to<int64_t>` specialization. -/
def JSONValueConverter.toInt64 (val : JSON) (fallback : Int) : Int :=
  if val.is_number_integer then toInt64cast val.getInt else fallback

/-- `to<float>` specialization. -/
def JSONValueConverter.toFloat (val : JSON) (fallback : Rat) : Rat :=
  if val.is_number_float then val.getFloat else fallback

/-- `to<double>` specialization. -/
def JSONValueConverter.toDouble (val : JSON) (fallback : Rat) : Rat :=
  if val.is_number_float then val.getFloat else fallback

/-- `to<std::string>` specialization. -/
def JSONValueConverter.toStr (val : JSON) (fallback : String) : String :=
  if val.is_string then val.getStr else fallback

/-- the store-state effect of one post-construction public operation
(`reset` is treated separately by the claims). -/
inductive Op where
  | get (path : String)
  | set (path : String) (v : JSON)
  | serialize (pretty : Bool)
  | persist (fs : FS) (path : Option String) (append : Bool)

/-- store-state transition of one operation.  `getValue`, `writeToString`
and `writeToFile` are `const` member functions whose only mutable member is
the lock, so their transition is the identity; `setValue` is the embedded
mutation. -/
def Configuration.applyOp (st : Configuration) : Op → Configuration
  | Op.get _ => st
  | Op.set path v => Configuration.setValue st path v
  | Op.serialize _ => st
  | Op.persist _ _ _ => st

/-- an initially empty store: `Configuration(nullptr)` (the read event is
irrelevant for a null path). -/
def cfgEmpty : Configuration :=
  Configuration.construct none (ConstructEvent.ioRead ErrorCode.Ok JSON.null) false

/-- a store whose construction from a file hit an exception: unhealthy. -/
def cfgBroken : Configuration :=
  Configuration.construct (some "suzu.json") (ConstructEvent.exn JSON.null) false

theorem lookupKey_setKey_self (kvs : List (String × JSON)) (k : String) (c : JSON) :
    lookupKey (setKey kvs k c) k = some c := by
  induction kvs with
  | nil => simp [setKey, lookupKey]
  | cons kv r ih =>
    obtain ⟨k2, v2⟩ := kv
    by_cases hk : k2 = k
    · simp [setKey, hk, lookupKey]
    · simp [setKey, hk, lookupKey, ih]

theorem getD_set_self (xs : List JSON) (idx : Nat) (c : JSON) (h : idx < xs.length) :
    (xs.set idx c).getD idx JSON.null = c := by
  induction xs generalizing idx with
  | nil => simp at h
  | cons x r ih =>
    cases idx with
    | zero => simp
    | succ i =>
      simp only [List.set_cons_succ, List.getD_cons_succ]
      exact ih i (by simpa using h)

theorem replicate_getD_null (n i : Nat) :
    (List.replicate n JSON.null).getD i JSON.null = JSON.null := by
  induction n generalizing i with
  | zero => simp [List.getD]
  | succ m ih =>
    cases i with
    | zero => simp [List.replicate]
    | succ k => simp only [List.replicate, List.getD_cons_succ]; exact ih k

theorem getElem_extend_null (xs : List JSON) (idx : Nat) (h : xs.length ≤ idx) :
    (xs ++ List.replicate (idx + 1 - xs.length) JSON.null)[idx]?.getD JSON.null = JSON.null := by
  rw [List.getElem?_append_right h, List.getElem?_replicate]
  have hlt : idx - xs.length < idx + 1 - xs.length := by omega
  rw [if_pos hlt]
  rfl

theorem validIdx_ne_dash (t : String) (h : validIdx t = true) : (t == "-") = false := by
  cases hbe : (t == "-") with
  | false => rfl
  | true =>
    exfalso
    have ht : t = "-" := eq_of_beq hbe
    rw [ht] at h
    exact absurd h (by decide)

theorem idxOk_validIdx (t : String) (h : idxOk t = true) : validIdx t = true := by
  rw [idxOk, Bool.and_eq_true] at h
  exact h.1

theorem idxOk_ne_dash (t : String) (h : idxOk t = true) : (t == "-") = false :=
  validIdx_ne_dash t (idxOk_validIdx t h)

/-- a creating walk along a compatible token list succeeds, and the const
walk afterwards finds exactly the written value at that pointer. -/
theorem write_resolve (ts : List String) : ∀ (j v : JSON), pathFits j ts = true →
    (jsonWrite j ts v).2 = true ∧ jsonResolve (jsonWrite j ts v).1 ts = some v := by
  induction ts with
  | nil =>
    intro j v _
    refine ⟨?_, ?_⟩ <;> simp [jsonWrite, jsonResolve]
  | cons t ts ih =>
    intro j v h
    cases j with
    | null =>
      cases hc : (allDigits t.data || (t == "-")) with
      | true =>
        simp only [pathFits, hc, if_true, Bool.and_eq_true] at h
        obtain ⟨hv64, hf⟩ := h
        have hdash := idxOk_ne_dash t hv64
        have harr : array_index t = some (tokToNat t) := by simp [array_index, hv64]
        have hall : allDigits t.data = true := by simpa [hdash] using hc
        have hw : jsonWrite JSON.null (t :: ts) v =
            (JSON.arr ((List.replicate (tokToNat t + 1) JSON.null).set (tokToNat t)
              ((jsonWrite JSON.null ts v).1)), (jsonWrite JSON.null ts v).2) := by
          simp [jsonWrite, hall, hdash, harr, List.getElem?_replicate, Nat.lt_add_one]
        rw [hw]
        refine ⟨(ih JSON.null v hf).1, ?_⟩
        have hlen : tokToNat t <
            ((List.replicate (tokToNat t + 1) JSON.null).set (tokToNat t)
              ((jsonWrite JSON.null ts v).1)).length := by
          simp [List.length_set, List.length_replicate]
        simp only [jsonResolve, hdash, Bool.false_eq_true, if_false, harr, hlen, if_true]
        rw [getD_set_self _ _ _ (by simp [List.length_replicate])]
        exact (ih JSON.null v hf).2
      | false =>
        simp only [pathFits, hc, Bool.false_eq_true, if_false] at h
        have hw : jsonWrite JSON.null (t :: ts) v =
            (JSON.obj [(t, (jsonWrite JSON.null ts v).1)], (jsonWrite JSON.null ts v).2) := by
          simp [jsonWrite, hc, lookupKey, setKey]
        rw [hw]
        refine ⟨(ih JSON.null v h).1, ?_⟩
        simp only [jsonResolve, lookupKey, if_pos rfl]
        exact (ih JSON.null v h).2
    | obj kvs =>
      simp only [pathFits] at h
      have hw : jsonWrite (JSON.obj kvs) (t :: ts) v =
          (JSON.obj (setKey kvs t ((jsonWrite ((lookupKey kvs t).getD JSON.null) ts v).1)),
            (jsonWrite ((lookupKey kvs t).getD JSON.null) ts v).2) := by
        simp [jsonWrite]
      rw [hw]
      refine ⟨(ih _ v h).1, ?_⟩
      simp only [jsonResolve, lookupKey_setKey_self]
      exact (ih _ v h).2
    | arr xs =>
      simp only [pathFits, Bool.and_eq_true] at h
      obtain ⟨hv64, hf⟩ := h
      have hdash := idxOk_ne_dash t hv64
      have harr : array_index t = some (tokToNat t) := by simp [array_index, hv64]
      by_cases hlt : tokToNat t < xs.length
      · rw [if_pos hlt] at hf
        have hw : jsonWrite (JSON.arr xs) (t :: ts) v =
            (JSON.arr (xs.set (tokToNat t) ((jsonWrite (xs.getD (tokToNat t) JSON.null) ts v).1)),
              (jsonWrite (xs.getD (tokToNat t) JSON.null) ts v).2) := by
          simp [jsonWrite, hdash, harr, hlt]
        rw [hw]
        refine ⟨(ih _ v hf).1, ?_⟩
        have hlen : tokToNat t <
            (xs.set (tokToNat t) ((jsonWrite (xs.getD (tokToNat t) JSON.null) ts v).1)).length := by
          simpa [List.length_set] using hlt
        simp only [jsonResolve, hdash, Bool.false_eq_true, if_false, harr, hlen, if_true]
        rw [getD_set_self _ _ _ (by simpa [List.length_set] using hlt)]
        exact (ih _ v hf).2
      · rw [if_neg hlt] at hf
        have hle : xs.length ≤ tokToNat t := Nat.le_of_not_lt hlt
        have hw : jsonWrite (JSON.arr xs) (t :: ts) v =
            (JSON.arr ((xs ++ List.replicate (tokToNat t + 1 - xs.length) JSON.null).set
                (tokToNat t) ((jsonWrite JSON.null ts v).1)),
              (jsonWrite JSON.null ts v).2) := by
          simp [jsonWrite, hdash, harr, hlt, getElem_extend_null _ _ hle]
        rw [hw]
        refine ⟨(ih JSON.null v hf).1, ?_⟩
        have hylen : (xs ++ List.replicate (tokToNat t + 1 - xs.length) JSON.null).length =
            tokToNat t + 1 := by
          simp [List.length_append, List.length_replicate]; omega
        have hlen : tokToNat t <
            ((xs ++ List.replicate (tokToNat t + 1 - xs.length) JSON.null).set
              (tokToNat t) ((jsonWrite JSON.null ts v).1)).length := by
          simp [List.length_set, hylen]
        simp only [jsonResolve, hdash, Bool.false_eq_true, if_false, harr, hlen, if_true]
        rw [getD_set_self _ _ _ (by simp [hylen])]
        exact (ih JSON.null v hf).2
    | boolean b => simp [pathFits] at h
    | num n => simp [pathFits] at h
    | fnum q => simp [pathFits] at h
    | str s => simp [pathFits] at h
    | discarded => simp [pathFits] at h

/-- Claim C1 (code bug witnessed): the spec and the function's own
documentation say `writeToFile` falls back to the stored source path when
the path argument is null and fails with `InvalidParameter` only when
neither is present; the code instead returns `InvalidParameter` for every
null path argument — even on a healthy store that recorded a source path at
construction — leaving the fallback ternary dead.  The destructor works
around this by passing the saved path explicitly. -/
theorem writeToFile_nullptr_invalidParameter (fs : FS) (st : Configuration) :
    Configuration.writeToFile fs st none false = ErrorCode.InvalidParameter ∧
    (Configuration.construct (some "config.json")
      (ConstructEvent.ioRead ErrorCode.Ok (JSON.obj [])) true).m_path = "config.json" ∧
    (Configuration.construct (some "config.json")
      (ConstructEvent.ioRead ErrorCode.Ok (JSON.obj [])) true).m_isOk = true ∧
    (∀ st2 : Configuration, Configuration.destroy fs st2 =
      if st2.m_writeOnDel && !(st2.m_path = "") then
        some (Configuration.writeToFile fs st2 (some st2.m_path) false)
      else none) :=
  ⟨rfl, rfl, rfl, fun _ => rfl⟩

/-- Claim C2: construction from a file path records the path first; an I/O
failure code from `ReadFile` leaves the default (null) document and a
healthy store; a successful read whose permissive parse is discarded resets
the document to an empty object, still healthy; a read whose parse yields a
proper document installs it; and the store is unhealthy exactly when an
exception escaped the protected sequence. -/
theorem construct_failure_asymmetry (p : String) (wd : Bool) :
    (∀ (c : ErrorCode) (parsed : JSON), c ≠ ErrorCode.Ok →
      Configuration.construct (some p) (ConstructEvent.ioRead c parsed) wd =
        { m_dict := JSON.null, m_path := p, m_isOk := true, m_writeOnDel := wd }) ∧
    (∀ parsed : JSON, parsed.is_discarded = true →
      Configuration.construct (some p) (ConstructEvent.ioRead ErrorCode.Ok parsed) wd =
        { m_dict := JSON.obj [], m_path := p, m_isOk := true, m_writeOnDel := wd }) ∧
    (∀ parsed : JSON, parsed.is_discarded = false →
      Configuration.construct (some p) (ConstructEvent.ioRead ErrorCode.Ok parsed) wd =
        { m_dict := parsed, m_path := p, m_isOk := true, m_writeOnDel := wd }) ∧
    (∀ ev : ConstructEvent, (Configuration.construct (some p) ev wd).m_isOk = false ↔
      ∃ d, ev = ConstructEvent.exn d) := by
  refine ⟨?_, ?_, ?_, ?_⟩
  · intro c parsed hc
    simp [Configuration.construct, hc]
  · intro parsed hd
    simp [Configuration.construct, hd]
  · intro parsed hd
    simp [Configuration.construct, hd]
  · intro ev
    cases ev with
    | ioRead c parsed =>
      constructor
      · intro h
        exfalso
        by_cases h1 : c = ErrorCode.Ok
        · by_cases h2 : parsed.is_discarded = true
          · simp [Configuration.construct, h1, h2] at h
          · simp [Configuration.construct, h1, h2] at h
        · simp [Configuration.construct, h1] at h
      · rintro ⟨d, hd⟩
        cases hd
    | exn d =>
      constructor
      · intro _
        exact ⟨d, rfl⟩
      · intro _
        rfl

/-- Claim C2 witness: concrete instances of the three healthy outcomes and
the exception outcome. -/
theorem construct_failure_asymmetry_witness :
    (Configuration.construct (some "cfg.json")
      (ConstructEvent.ioRead ErrorCode.OpenFile JSON.null) true =
        { m_dict := JSON.null, m_path := "cfg.json", m_isOk := true, m_writeOnDel := true }) ∧
    (Configuration.construct (some "cfg.json")
      (ConstructEvent.ioRead ErrorCode.Ok JSON.discarded) true =
        { m_dict := JSON.obj [], m_path := "cfg.json", m_isOk := true, m_writeOnDel := true }) ∧
    (Configuration.construct (some "cfg.json")
      (ConstructEvent.ioRead ErrorCode.Ok (JSON.obj [("a", JSON.num 1)])) true =
        { m_dict := JSON.obj [("a", JSON.num 1)], m_path := "cfg.json", m_isOk := true,
          m_writeOnDel := true }) ∧
    ((Configuration.construct (some "cfg.json") (ConstructEvent.exn JSON.null) true).m_isOk =
      false) :=
  ⟨(construct_failure_asymmetry "cfg.json" true).1 ErrorCode.OpenFile JSON.null (by decide),
   (construct_failure_asymmetry "cfg.json" true).2.1 JSON.discarded rfl,
   (construct_failure_asymmetry "cfg.json" true).2.2.1 (JSON.obj [("a", JSON.num 1)]) rfl,
   ((construct_failure_asymmetry "cfg.json" true).2.2.2
     (ConstructEvent.exn JSON.null)).mpr ⟨JSON.null, rfl⟩⟩

/-- Claim C3: `getValue` is total (the embedding is a function — no fault
escapes); on an unhealthy store or an unresolvable path it returns the
discarded sentinel, whose `is_discarded` predicate holds and which differs
from every value with `is_discarded = false`; on a healthy store with a
resolvable path it returns the resolved node. -/
theorem getValue_spec (st : Configuration) (path : String) :
    ((st.m_isOk = false ∨ Configuration.lookupPath st path = none) →
      Configuration.getValue st path = JSON.discarded) ∧
    (∀ v : JSON, st.m_isOk = true → Configuration.lookupPath st path = some v →
      Configuration.getValue st path = v) ∧
    (∀ v : JSON, v.is_discarded = false → v ≠ JSON.discarded) ∧
    JSON.discarded.is_discarded = true := by
  refine ⟨?_, ?_, ?_, rfl⟩
  · intro h
    cases hp : jsonPointerParse path with
    | none => simp [Configuration.getValue, hp]
    | some toks =>
      rcases h with h | h
      · simp [Configuration.getValue, hp, h]
      · rw [Configuration.lookupPath, hp] at h
        simp only [Option.some_bind] at h
        by_cases hok : st.m_isOk = false
        · simp [Configuration.getValue, hp, hok]
        · simp [Configuration.getValue, hp, hok, h]
  · intro v hok hl
    cases hp : jsonPointerParse path with
    | none =>
      rw [Configuration.lookupPath, hp] at hl
      simp at hl
    | some toks =>
      rw [Configuration.lookupPath, hp] at hl
      simp only [Option.some_bind] at hl
      simp [Configuration.getValue, hp, hok, hl]
  · intro v hv heq
    rw [heq] at hv
    exact absurd hv (by decide)

/-- Claim C3 witness: on the empty store, a missing path yields the
sentinel, the root path resolves to the document, and a concrete
non-discarded value differs from the sentinel. -/
theorem getValue_spec_witness :
    Configuration.getValue cfgEmpty "/missing" = JSON.discarded ∧
    Configuration.getValue cfgEmpty "" = JSON.null ∧
    JSON.num 3 ≠ JSON.discarded :=
  ⟨(getValue_spec cfgEmpty "/missing").1 (Or.inr rfl),
   (getValue_spec cfgEmpty "").2.1 JSON.null rfl rfl,
   (getValue_spec cfgEmpty "").2.2.1 (JSON.num 3) rfl⟩

/-- Claim C4, counterexample to the claim as stated: the store holding
`\x7b"a":5\x7d` is healthy, `/a/b` is a well-formed path and `7` a
non-discarded value, yet `setValue("/a/b", 7)` followed by
`getValue("/a/b")` returns the discarded sentinel, not `7`: the creating
walk throws on the existing primitive node at `a` and the write is a
no-op. -/
theorem setValue_getValue_roundtrip_cex :
    (Configuration.setValue cfgEmpty "/a" (JSON.num 5)).m_isOk = true ∧
    (jsonPointerParse "/a/b").isSome = true ∧
    (JSON.num 7).is_discarded = false ∧
    Configuration.getValue
      (Configuration.setValue (Configuration.setValue cfgEmpty "/a" (JSON.num 5)) "/a/b"
        (JSON.num 7)) "/a/b" = JSON.discarded ∧
    JSON.discarded ≠ JSON.num 7 := by
  refine ⟨rfl, rfl, rfl, rfl, ?_⟩
  intro h
  exact JSON.noConfusion h

/-- Claim C4 as amended: for every healthy store, every non-discarded value
and every well-formed path each of whose tokens is compatible with the
nodes already present along it (existing interior nodes are objects, or
arrays indexed by a valid numeric token — `-` excluded; null or absent
nodes are freshly created), `setValue` followed by `getValue` on that path
returns the written value. -/
theorem setValue_getValue_roundtrip (st : Configuration) (path : String)
    (toks : List String) (v : JSON) (hok : st.m_isOk = true)
    (hparse : jsonPointerParse path = some toks)
    (hfits : pathFits st.m_dict toks = true) (_hv : v.is_discarded = false) :
    Configuration.getValue (Configuration.setValue st path v) path = v := by
  have hw := write_resolve toks st.m_dict v hfits
  have hset : Configuration.setValue st path v =
      { st with m_dict := (jsonWrite st.m_dict toks v).1 } := by
    simp [Configuration.setValue, hok, hparse]
  rw [hset]
  simp [Configuration.getValue, hparse, hok, hw.2]

/-- Claim C4 witness: on the empty store, writing `8080` at `/srv/port`
creates both intermediate objects and reads back the written value. -/
theorem setValue_getValue_roundtrip_witness :
    Configuration.getValue (Configuration.setValue cfgEmpty "/srv/port" (JSON.num 8080))
      "/srv/port" = JSON.num 8080 :=
  setValue_getValue_roundtrip cfgEmpty "/srv/port" ["srv", "port"] (JSON.num 8080)
    rfl rfl (by decide) rfl

/-- Claim C5: after `reset`, whatever the prior state (healthy or not), the
document is the empty object — `getValue` at the root path returns an empty
object — and `isOk` reports a healthy store. -/
theorem reset_spec (st : Configuration) :
    Configuration.getValue (Configuration.reset st) "" = JSON.obj [] ∧
    (Configuration.reset st).isOk = true :=
  ⟨rfl, rfl⟩

/-- Claim C6: every `JSONCVT::to` specialization returns the fallback
unless the value's runtime kind matches the target kind exactly; there is
no coercion between the integer and floating kinds, and narrowing a string
node to the 32-bit-integer target with fallback `-1` yields `-1`. -/
theorem jsoncvt_narrow_spec (v : JSON) (fi : Int) (fq : Rat) (fs2 : String) :
    (v.is_number_integer = false →
      JSONValueConverter.toInt32 v fi = fi ∧ JSONValueConverter.toInt64 v fi = fi) ∧
    (v.is_number_float = false →
      JSONValueConverter.toFloat v fq = fq ∧ JSONValueConverter.toDouble v fq = fq) ∧
    (v.is_string = false → JSONValueConverter.toStr v fs2 = fs2) ∧
    (∀ s : String, JSONValueConverter.toInt32 (JSON.str s) (-1) = -1) ∧
    (∀ n : Int, JSONValueConverter.toFloat (JSON.num n) fq = fq ∧
      JSONValueConverter.toDouble (JSON.num n) fq = fq) ∧
    (∀ q : Rat, JSONValueConverter.toInt32 (JSON.fnum q) fi = fi ∧
      JSONValueConverter.toInt64 (JSON.fnum q) fi = fi) := by
  refine ⟨fun h => ⟨?_, ?_⟩, fun h => ⟨?_, ?_⟩, fun h => ?_, fun s => ?_, fun n => ⟨?_, ?_⟩,
    fun q => ⟨?_, ?_⟩⟩ <;>
    simp_all [JSONValueConverter.toInt32, JSONValueConverter.toInt64,
      JSONValueConverter.toFloat, JSONValueConverter.toDouble, JSONValueConverter.toStr,
      JSON.is_number_integer, JSON.is_number_float, JSON.is_string]

/-- Claim C6 witness: a string node narrowed to the 32-bit-integer target
with fallback `-1` gives `-1`; an integer node narrowed to the double
target gives the fallback. -/
theorem jsoncvt_narrow_spec_witness :
    JSONValueConverter.toInt32 (JSON.str "8080") (-1) = -1 ∧
    JSONValueConverter.toDouble (JSON.num 3) 5 = 5 :=
  ⟨(jsoncvt_narrow_spec (JSON.str "8080") (-1) 5 "").2.2.2.1 "8080",
   ((jsoncvt_narrow_spec (JSON.num 3) (-1) 5 "").2.2.2.2.1 3).2⟩

/-- Claim C7: `writeToString` on an unhealthy store returns exactly the
two-character empty-object text for either value of `pretty`; on a healthy
store it returns the full serialization of the document — dense with
`pretty = false`, 4-space-indented with `pretty = true` — illustrated on a
concrete document in both forms. -/
theorem writeToString_spec (st : Configuration) (pretty : Bool) :
    (st.m_isOk = false → Configuration.writeToString st pretty = "\x7b\x7d" ∧
      ("\x7b\x7d" : String).length = 2) ∧
    (st.m_isOk = true → Configuration.writeToString st pretty =
      dumpJSON (if pretty then some 4 else none) st.m_dict 0) ∧
    dumpJSON none (JSON.obj [("a", JSON.num 1)]) 0 = "\x7b\"a\":1\x7d" ∧
    dumpJSON (some 4) (JSON.obj [("a", JSON.num 1)]) 0 = "\x7b\n    \"a\": 1\n\x7d" := by
  refine ⟨fun h => ⟨?_, by decide⟩, fun h => ?_, by decide, by decide⟩
  · simp [Configuration.writeToString, h]
  · simp [Configuration.writeToString, h]

/-- Claim C7 witness: the unhealthy store serializes to the empty-object
text, the healthy empty store to its document's dense dump. -/
theorem writeToString_spec_witness :
    Configuration.writeToString cfgBroken true = "\x7b\x7d" ∧
    Configuration.writeToString cfgEmpty false = dumpJSON none cfgEmpty.m_dict 0 :=
  ⟨((writeToString_spec cfgBroken true).1 rfl).1,
   (writeToString_spec cfgEmpty false).2.1 rfl⟩

/-- Claim C9: on a healthy store, a non-empty path that does not begin with
`/` makes `getValue` return the discarded sentinel and leaves `setValue` a
no-op: the `json_pointer` constructor's exception is caught inside the
store and never crosses its public boundary. -/
theorem malformed_path_isolated (st : Configuration) (path : String) (v : JSON)
    (hok : st.m_isOk = true) (hne : path ≠ "") (hs : path.data.head? ≠ some '/') :
    Configuration.getValue st path = JSON.discarded ∧
    Configuration.setValue st path v = st := by
  have hp : jsonPointerParse path = none := by
    cases hd : path.data with
    | nil =>
      exfalso
      exact hne (String.ext (by rw [hd]))
    | cons c rest =>
      have hc : c ≠ '/' := by
        intro hceq
        apply hs
        rw [hd, hceq]
        rfl
      simp [jsonPointerParse, hd, hc]
  constructor
  · simp [Configuration.getValue, hp]
  · simp [Configuration.setValue, hp, hok]

/-- Claim C9 witness: the path `logfile` (missing its leading slash) is
isolated on the empty healthy store. -/
theorem malformed_path_isolated_witness :
    Configuration.getValue cfgEmpty "logfile" = JSON.discarded ∧
    Configuration.setValue cfgEmpty "logfile" (JSON.num 1) = cfgEmpty :=
  malformed_path_isolated cfgEmpty "logfile" (JSON.num 1) rfl (by decide) (by decide)

/-- Claim C10: the health flag is a frame invariant of the
post-construction operations — `setValue`'s transition preserves it and the
`const` operations (`getValue`, `writeToString`, `writeToFile`) are
identities on the store state — it becomes true under `reset`, and a store
is ever constructed unhealthy only through the constructor's fault handler
(a non-null path whose protected sequence threw). -/
theorem health_flag_frame (st : Configuration) (op : Op) :
    (Configuration.applyOp st op).m_isOk = st.m_isOk ∧
    (∀ st2 : Configuration, (Configuration.reset st2).m_isOk = true) ∧
    (∀ (pth : Option String) (ev : ConstructEvent) (wd : Bool),
      (Configuration.construct pth ev wd).m_isOk = false →
      ∃ p d, pth = some p ∧ ev = ConstructEvent.exn d) := by
  refine ⟨?_, fun st2 => rfl, ?_⟩
  · cases op with
    | get p => rfl
    | serialize pr => rfl
    | persist fs p a => rfl
    | set p v =>
      simp only [Configuration.applyOp, Configuration.setValue]
      split
      · rfl
      · split
        · rfl
        · rfl
  · intro pth ev wd h
    cases pth with
    | none => simp [Configuration.construct] at h
    | some p =>
      cases ev with
      | ioRead c parsed =>
        exfalso
        by_cases h1 : c = ErrorCode.Ok
        · by_cases h2 : parsed.is_discarded = true
          · simp [Configuration.construct, h1, h2] at h
          · simp [Configuration.construct, h1, h2] at h
        · simp [Configuration.construct, h1] at h
      | exn d => exact ⟨p, d, rfl, rfl⟩

/-- Claim C10 witness: a concrete `setValue` transition preserves the flag,
and the only unhealthy construction is the exception case. -/
theorem health_flag_frame_witness :
    (Configuration.applyOp cfgEmpty (Op.set "/a" (JSON.num 1))).m_isOk = cfgEmpty.m_isOk ∧
    (∃ p d, (some "suzu.json" : Option String) = some p ∧
      ConstructEvent.exn JSON.null = ConstructEvent.exn d) :=
  ⟨(health_flag_frame cfgEmpty (Op.set "/a" (JSON.num 1))).1,
   (health_flag_frame cfgEmpty (Op.get "")).2.2 (some "suzu.json")
     (ConstructEvent.exn JSON.null) false rfl⟩
